import Mathlib

/-!
Shallow embedding of `src/keys/ecdsa.rs` from rust-osshkeys: the ECDSA
curve registry, SSH public-key blob encoding, and the sign/verify wiring.

The OpenSSL crypto provider is external to the repository; it is modelled
as an explicit `Provider` record of functions (group/point storage is
structural: `EcKey::from_public_key` stores exactly the given group and
point, and may fail).  Bytes are `List Nat` (each < 256 in practice).
-/

namespace OsshEcdsa

/-- Modelled from the spec (section 7): the error taxonomy of `crate::error`,
whose declaration is not under `src/`; only the variant names used by
`ecdsa.rs` and the spec are modelled. -/
inductive Error where
  | UnsupportedCurve
  | InvalidFormat
  | Crypto
  | Encoding
deriving DecidableEq, Repr

/-- OpenSSL numeric curve identifiers: the three matched by
`EcDsaPublicKey::new`, plus an `OTHER` bucket for every other Nid. -/
inductive Nid where
  | X9_62_PRIME256V1
  | SECP384R1
  | SECP521R1
  | OTHER (n : Nat)
deriving DecidableEq, Repr

/-- Digest selector passed to the provider (`openssl::hash::MessageDigest`). -/
inductive MessageDigest where
  | sha1
  | sha256
  | sha384
  | sha512
deriving DecidableEq, Repr

/-- An OpenSSL `EcGroupRef`: for this embedding only its standard curve
designation (`EC_GROUP_get_curve_name`) is observable, `none` when the
group carries no recognizable designation. -/
structure EcGroupRef where
  curve_name : Option Nid
deriving DecidableEq, Repr

/-- An OpenSSL `EcPointRef`: modelled by its canonical affine coordinates
(`none` is the point at infinity).  `EC_POINT_cmp` compares these. -/
structure EcPointRef where
  coords : Option (Nat × Nat)
deriving DecidableEq, Repr

/-- An OpenSSL `EcKey<Public>`: stores the group and the public point it was
constructed from. -/
structure EcKeyPub where
  group : EcGroupRef
  public_key : EcPointRef
deriving DecidableEq, Repr

/-- An OpenSSL `EcKey<Private>`: group, derived public point, and the opaque
private scalar. -/
structure EcKeyPriv where
  group : EcGroupRef
  public_key : EcPointRef
  priv_scalar : Nat
deriving DecidableEq, Repr

/-- The external crypto provider boundary (OpenSSL), as consumed by
`ecdsa.rs`:
`accepts` is the validation inside `EcKey::from_public_key` (`none` means
the key object is constructed, `some e` that construction fails with `e`);
`to_bytes` is `EC_POINT_point2oct` in uncompressed form;
`sign` collapses `PKey::from_ec_key` / `Signer::new(digest)` / `update` /
`sign_to_vec`; `verify` collapses the corresponding `Verifier` calls,
returning `ok false` on a clean cryptographic mismatch and `error` when the
input cannot be processed at all. -/
structure Provider where
  accepts : EcGroupRef → EcPointRef → Option Error
  to_bytes : EcGroupRef → EcPointRef → Except Error (List Nat)
  sign : MessageDigest → EcKeyPriv → List Nat → Except Error (List Nat)
  verify : MessageDigest → EcKeyPub → List Nat → List Nat → Except Error Bool

/-- `EcKey::from_public_key(group, point)`: stores exactly the supplied
group and point, propagating any provider rejection. -/
def EcKey.from_public_key (P : Provider) (group : EcGroupRef)
    (point : EcPointRef) : Except Error EcKeyPub :=
  match P.accepts group point with
  | none => .ok ⟨group, point⟩
  | some e => .error e

/-- The closed curve enumeration `EcCurve`. -/
inductive EcCurve where
  | Nistp256
  | Nistp384
  | Nistp521
deriving DecidableEq, Repr

namespace EcCurve

/-- `EcCurve::size`. -/
def size : EcCurve → Nat
  | .Nistp256 => 256
  | .Nistp384 => 384
  | .Nistp521 => 521

/-- `EcCurve::nid`. -/
def nid : EcCurve → Nid
  | .Nistp256 => .X9_62_PRIME256V1
  | .Nistp384 => .SECP384R1
  | .Nistp521 => .SECP521R1

/-- `EcCurve::name`: the SSH algorithm name constants. -/
def name : EcCurve → String
  | .Nistp256 => "ecdsa-sha2-nistp256"
  | .Nistp384 => "ecdsa-sha2-nistp384"
  | .Nistp521 => "ecdsa-sha2-nistp521"

/-- `EcCurve::ident`: the short curve identifier. -/
def ident : EcCurve → String
  | .Nistp256 => "nistp256"
  | .Nistp384 => "nistp384"
  | .Nistp521 => "nistp521"

/-- `impl FromStr for EcCurve`: the Rust `match` on the string, written as
the equivalent sequence of equality tests. -/
def from_str (s : String) : Except Error EcCurve :=
  if s = "nistp256" then .ok .Nistp256
  else if s = "nistp384" then .ok .Nistp384
  else if s = "nistp521" then .ok .Nistp521
  else .error .UnsupportedCurve

end EcCurve

/-- The curve-designation match inside `EcDsaPublicKey::new` (lines 98-103),
as a lookup from Nid to the supported curve, `none` for the `_` arm. -/
def nidToCurve : Nid → Option EcCurve
  | .X9_62_PRIME256V1 => some .Nistp256
  | .SECP384R1 => some .Nistp384
  | .SECP521R1 => some .Nistp521
  | .OTHER _ => none

/-- ASCII byte list of a string (all strings written here are ASCII, so the
char codes are the UTF-8 bytes). -/
def strBytes (s : String) : List Nat :=
  s.toList.map Char.toNat

/-- Big-endian 4-byte encoding of a length. -/
def u32be (n : Nat) : List Nat :=
  [n / 2 ^ 24 % 256, n / 2 ^ 16 % 256, n / 2 ^ 8 % 256, n % 256]

/-- Modelled from the spec (sections 4.4 and 6): `SshWriteExt::write_string`
of `crate::sshbuf`, which is not under `src/` — a length-prefixed byte
string is a 4-byte big-endian length followed by the raw bytes. -/
def write_string (buf : List Nat) (s : List Nat) : List Nat :=
  buf ++ u32be s.length ++ s

/-- Modelled from the spec (sections 4.4 and 6): `SshWriteExt::write_utf8`
of `crate::sshbuf`, which is not under `src/` — the same framing applied to
the UTF-8 bytes of the text. -/
def write_utf8 (buf : List Nat) (s : String) : List Nat :=
  write_string buf (strBytes s)

/-- `eckey_blob(curve, key)` (lines 201-217): writes the algorithm name, the
short identifier, and the uncompressed point bytes into a fresh buffer.
`BigNumContext::new` is modelled as infallible; `to_bytes` failure
propagates. -/
def eckey_blob (P : Provider) (curve : EcCurve) (key : EcKeyPub) :
    Except Error (List Nat) :=
  match P.to_bytes key.group key.public_key with
  | .error e => .error e
  | .ok pt =>
      .ok (write_string (write_utf8 (write_utf8 [] curve.name) curve.ident) pt)

/-- The public key value `EcDsaPublicKey`. -/
structure EcDsaPublicKey where
  key : EcKeyPub
  curve : EcCurve
deriving DecidableEq, Repr

namespace EcDsaPublicKey

/-- `EcDsaPublicKey::new(group, public_key)` (lines 96-112). -/
def new (P : Provider) (group : EcGroupRef) (public_key : EcPointRef) :
    Except Error EcDsaPublicKey :=
  match group.curve_name with
  | some n =>
      match nidToCurve n with
      | some curve =>
          match EcKey.from_public_key P group public_key with
          | .ok k => .ok ⟨k, curve⟩
          | .error e => .error e
      | none => .error .InvalidFormat
  | none => .error .InvalidFormat

/-- `Key::size` for `EcDsaPublicKey`. -/
def size (k : EcDsaPublicKey) : Nat := k.curve.size

/-- `Key::keytype` for `EcDsaPublicKey`. -/
def keytype (k : EcDsaPublicKey) : String := k.curve.name

/-- `PubKey::blob` for `EcDsaPublicKey` (lines 126-128). -/
def blob (k : EcDsaPublicKey) (P : Provider) : Except Error (List Nat) :=
  eckey_blob P k.curve k.key

/-- `PubKey::verify` for `EcDsaPublicKey` (lines 130-135): SHA-1 verifier
over the stored key, forwarding the provider result. -/
def verify (k : EcDsaPublicKey) (P : Provider) (data sig : List Nat) :
    Except Error Bool :=
  P.verify .sha1 k.key data sig

/-- `impl PartialEq for EcDsaPublicKey` (lines 138-149): curve tags equal,
and the public points equal under `self`'s group (`EC_POINT_cmp`, which
compares canonical affine coordinates). -/
def eq (a b : EcDsaPublicKey) : Bool :=
  a.curve == b.curve && a.key.public_key.coords == b.key.public_key.coords

end EcDsaPublicKey

/-- The key pair value `EcDsaKeyPair`. -/
structure EcDsaKeyPair where
  key : EcKeyPriv
  curve : EcCurve
deriving DecidableEq, Repr

namespace EcDsaKeyPair

/-- `EcDsaKeyPair::clone_public_key` (lines 163-170). -/
def clone_public_key (kp : EcDsaKeyPair) (P : Provider) :
    Except Error EcDsaPublicKey :=
  EcDsaPublicKey.new P kp.key.group kp.key.public_key

/-- `PubKey::blob` for `EcDsaKeyPair` (lines 183-185). -/
def blob (kp : EcDsaKeyPair) (P : Provider) : Except Error (List Nat) :=
  eckey_blob P kp.curve ⟨kp.key.group, kp.key.public_key⟩

/-- `PubKey::verify` for `EcDsaKeyPair` (lines 187-189): delegates to the
freshly derived public key, propagating a derivation failure. -/
def verify (kp : EcDsaKeyPair) (P : Provider) (data sig : List Nat) :
    Except Error Bool :=
  match kp.clone_public_key P with
  | .error e => .error e
  | .ok pk => pk.verify P data sig

/-- `PrivKey::sign` for `EcDsaKeyPair` (lines 192-199): SHA-1 signer over
the private key, returning the provider's native signature bytes. -/
def sign (kp : EcDsaKeyPair) (P : Provider) (data : List Nat) :
    Except Error (List Nat) :=
  P.sign .sha1 kp.key data

end EcDsaKeyPair

/-- The standard base64 alphabet. -/
def b64alphabet : List Char :=
  "ABCDEFGHIJKLMNOPQRSTUVWXYZabcdefghijklmnopqrstuvwxyz0123456789+/".toList

/-- One base64 digit. -/
def b64char (n : Nat) : Char :=
  b64alphabet.getD n 'A'

/-- Base64 encoding of a byte list, three bytes a chunk, standard padding. -/
def base64Chunks : List Nat → List Char
  | [] => []
  | [a] => [b64char (a / 4), b64char (a % 4 * 16), '=', '=']
  | [a, b] => [b64char (a / 4), b64char (a % 4 * 16 + b / 16),
      b64char (b % 16 * 4), '=']
  | a :: b :: c :: rest =>
      b64char (a / 4) :: b64char (a % 4 * 16 + b / 16) ::
        b64char (b % 16 * 4 + c / 64) :: b64char (c % 64) ::
          base64Chunks rest

/-- `base64::encode_config(_, base64::STANDARD)`. -/
def base64_encode (bytes : List Nat) : String :=
  String.mk (base64Chunks bytes)

/-- `impl fmt::Display for EcDsaPublicKey` (lines 151-156): the blob result
is unwrapped, so a blob failure panics; `none` models the panic. -/
def EcDsaPublicKey.display (k : EcDsaPublicKey) (P : Provider) :
    Option String :=
  match k.blob P with
  | .error _ => none
  | .ok b => some (k.curve.name ++ " " ++ base64_encode b)

/-! Concrete fixtures, taken from the module's test (`pub_key`, `pub_str`,
and the nistp256 group), for evaluating the embedding. -/

/-- The 65-byte uncompressed test point `pub_key` of the module test. -/
def testPt : List Nat := [
  0x04, 0xab, 0x5c, 0x2b, 0xcd, 0x9c, 0x12, 0x8a, 0xa3, 0x89, 0x7c, 0xaa,
  0x3e, 0x9c, 0x90, 0x02, 0x59, 0x0e, 0x41, 0x8b, 0x3c, 0x2c, 0xbe, 0x5d,
  0x0d, 0xa8, 0x4f, 0x6a, 0x1e, 0x5d, 0xaa, 0x86, 0x89, 0x7d, 0x51, 0xdc,
  0x29, 0x2e, 0x42, 0x25, 0x80, 0x57, 0xd0, 0xec, 0x3e, 0x0e, 0x58, 0xfd,
  0xc4, 0xab, 0x52, 0x41, 0x10, 0xb2, 0x25, 0x73, 0x82, 0x12, 0xd2, 0x71,
  0xfa, 0x4e, 0x0b, 0x51, 0x5d]

/-- The expected display string `pub_str` of the module test. -/
def pub_str : String :=
  "ecdsa-sha2-nistp256 AAAAE2VjZHNhLXNoYTItbmlzdHAyNTYAAAAIbmlzdHAyNTYAAABBBKtcK82cEoqjiXyqPpyQAlkOQYs8LL5dDahPah5dqoaJfVHcKS5CJYBX0Ow+Dlj9xKtSQRCyJXOCEtJx+k4LUV0="

/-- A group carrying the P-256 designation. -/
def testGroup : EcGroupRef := ⟨some .X9_62_PRIME256V1⟩

/-- A group carrying an unsupported designation. -/
def otherGroup : EcGroupRef := ⟨some (.OTHER 0)⟩

/-- A group with no recognizable designation. -/
def noNameGroup : EcGroupRef := ⟨none⟩

/-- A concrete point value. -/
def testPoint : EcPointRef := ⟨some (12, 34)⟩

/-- The public key `new` builds from `testGroup` and `testPoint`. -/
def testKey : EcDsaPublicKey := ⟨⟨testGroup, testPoint⟩, .Nistp256⟩

/-- A key pair over the same group and point. -/
def testPair : EcDsaKeyPair := ⟨⟨testGroup, testPoint, 7⟩, .Nistp256⟩

/-- A concrete provider instance: accepts every key, serializes every point
to `testPt`, and implements a toy signature scheme in which the signature
over `m` is `1 :: m` and verification checks exactly that. -/
def testProvider : Provider where
  accepts := fun _ _ => none
  to_bytes := fun _ _ => .ok testPt
  sign := fun _ _ m => .ok (1 :: m)
  verify := fun _ _ m s => .ok (s == 1 :: m)

/-- A provider instance on which every operation fails. -/
def failProvider : Provider where
  accepts := fun _ _ => some .Crypto
  to_bytes := fun _ _ => .error .Encoding
  sign := fun _ _ _ => .error .Crypto
  verify := fun _ _ _ _ => .error .Crypto

/-! Helper lemmas. -/

/-- Point values are equal exactly when their canonical coordinates are. -/
theorem EcPointRef.eq_iff {p q : EcPointRef} : p = q ↔ p.coords = q.coords := by
  cases p
  cases q
  simp

/-- Inversion of a successful `EcDsaPublicKey::new`: the stored key is
exactly the supplied group and point, the group's designation is the
curve's nid, and the provider accepted the material. -/
theorem new_ok_inv {P : Provider} {g : EcGroupRef} {p : EcPointRef}
    {k : EcDsaPublicKey} (h : EcDsaPublicKey.new P g p = .ok k) :
    k.key = ⟨g, p⟩ ∧ g.curve_name = some k.curve.nid ∧ P.accepts g p = none := by
  rcases hg : g.curve_name with _ | n
  · simp [EcDsaPublicKey.new, hg] at h
  · rcases hn : nidToCurve n with _ | c
    · simp [EcDsaPublicKey.new, hg, hn] at h
    · rcases ha : P.accepts g p with _ | e
      · simp [EcDsaPublicKey.new, EcKey.from_public_key, hg, hn, ha] at h
        subst h
        refine ⟨rfl, ?_, rfl⟩
        cases n <;> simp_all [nidToCurve, EcCurve.nid] <;> subst hn <;> rfl
      · simp [EcDsaPublicKey.new, EcKey.from_public_key, hg, hn, ha] at h

/-! The claims. -/

/-- C1: `blob()` emits exactly three length-prefixed fields in order — the
curve's SSH algorithm name, the curve's short identifier, and the
uncompressed point bytes — each framed as a 4-byte big-endian length
followed by the raw bytes, with no other fields and no trailing padding;
and for nistp256 with the 65-byte test point, the base64 of the blob
prefixed by "ecdsa-sha2-nistp256 " equals the quoted test string. -/
theorem c1_blob_three_fields (P : Provider) (curve : EcCurve)
    (key : EcKeyPub) (pt : List Nat)
    (h : P.to_bytes key.group key.public_key = .ok pt) :
    eckey_blob P curve key =
      .ok (u32be (strBytes curve.name).length ++ strBytes curve.name ++
        u32be (strBytes curve.ident).length ++ strBytes curve.ident ++
        u32be pt.length ++ pt)
    ∧ Except.map (fun b => "ecdsa-sha2-nistp256 " ++ base64_encode b)
        (eckey_blob testProvider .Nistp256 ⟨testGroup, testPoint⟩) =
      .ok pub_str := by
  constructor
  · simp [eckey_blob, h, write_string, write_utf8, List.append_assoc]
  · rfl

/-- Witness for C1 at the concrete test fixtures. -/
theorem c1_blob_three_fields_witness :
    eckey_blob testProvider EcCurve.Nistp256 ⟨testGroup, testPoint⟩ =
      .ok (u32be (strBytes EcCurve.Nistp256.name).length ++
        strBytes EcCurve.Nistp256.name ++
        u32be (strBytes EcCurve.Nistp256.ident).length ++
        strBytes EcCurve.Nistp256.ident ++
        u32be testPt.length ++ testPt) :=
  (c1_blob_three_fields testProvider .Nistp256 ⟨testGroup, testPoint⟩
    testPt rfl).1

/-- C2: two public keys are equal exactly when their curves are equal and
their public points are equal as group elements (canonical affine
coordinates); two keys constructed from the same (group, point) input are
equal, and keys on different curves are unequal. -/
theorem c2_eq_iff (P : Provider) (g1 g2 : EcGroupRef) (p1 p2 : EcPointRef)
    (k1 k2 : EcDsaPublicKey)
    (h1 : EcDsaPublicKey.new P g1 p1 = .ok k1)
    (h2 : EcDsaPublicKey.new P g2 p2 = .ok k2) :
    (k1.eq k2 = true ↔
      (k1.curve = k2.curve ∧ k1.key.public_key = k2.key.public_key))
    ∧ (g1 = g2 → p1 = p2 → k1.eq k2 = true)
    ∧ (k1.curve ≠ k2.curve → k1.eq k2 = false) := by
  refine ⟨?_, ?_, ?_⟩
  · simp [EcDsaPublicKey.eq, Bool.and_eq_true, beq_iff_eq, EcPointRef.eq_iff]
  · intro hg hp
    subst hg
    subst hp
    rw [h1] at h2
    injection h2 with h2
    subst h2
    simp [EcDsaPublicKey.eq]
  · intro hne
    have hb : (k1.curve == k2.curve) = false := beq_eq_false_iff_ne.mpr hne
    simp [EcDsaPublicKey.eq, hb]

/-- Witness for C2: the key constructed twice from the same test fixtures
is equal to itself. -/
theorem c2_eq_iff_witness : EcDsaPublicKey.eq testKey testKey = true :=
  (c2_eq_iff testProvider testGroup testGroup testPoint testPoint testKey
    testKey rfl rfl).2.1 rfl rfl

/-- C3: `sign` digests with SHA-1 and returns the provider's native
signature bytes, and `verify` digests with SHA-1, for every curve — never a
curve-size-matched digest. -/
theorem c3_sha1_digest (P : Provider) (kp : EcDsaKeyPair)
    (k : EcDsaPublicKey) (d s : List Nat) :
    kp.sign P d = P.sign MessageDigest.sha1 kp.key d
    ∧ k.verify P d s = P.verify MessageDigest.sha1 k.key d s :=
  ⟨rfl, rfl⟩

/-- C4: sign/verify round trip through the derived public key: when the
pair derives its public key, the provider produced the signature, and the
provider's SHA-1 ECDSA verifier accepts that signature for the pair's
public material, then `clonePublicKey().verify(m, sign(m))` is `ok true`. -/
theorem c4_sign_verify_roundtrip (P : Provider) (kp : EcDsaKeyPair)
    (m sig : List Nat) (pk : EcDsaPublicKey) (hm : m ≠ [])
    (hclone : kp.clone_public_key P = .ok pk)
    (hsign : kp.sign P m = .ok sig)
    (hprov : P.verify .sha1 ⟨kp.key.group, kp.key.public_key⟩ m sig =
      .ok true) :
    pk.verify P m sig = .ok true := by
  have hk := (new_ok_inv hclone).1
  unfold EcDsaPublicKey.verify
  rw [hk]
  exact hprov

/-- Witness for C4 at the toy provider: message `[5]`, signature `[1, 5]`. -/
theorem c4_sign_verify_roundtrip_witness :
    EcDsaPublicKey.verify testKey testProvider [5] [1, 5] = .ok true :=
  c4_sign_verify_roundtrip testProvider testPair [5] [1, 5] testKey
    (by decide) rfl rfl rfl

/-- C5: `verify` forwards the provider verdict unchanged: a clean
cryptographic mismatch comes back as `ok false`, and a signature the
provider cannot process comes back as the same error — no failure is
swallowed beyond the boolean-false mismatch. -/
theorem c5_verify_boundary (P : Provider) (k : EcDsaPublicKey)
    (d s : List Nat) :
    (∀ b, P.verify .sha1 k.key d s = .ok b → k.verify P d s = .ok b)
    ∧ (∀ e, P.verify .sha1 k.key d s = .error e →
        k.verify P d s = .error e) :=
  ⟨fun _ h => h, fun _ h => h⟩

/-- Witness for C5: a mismatch surfaces as `ok false` and a provider error
surfaces unchanged. -/
theorem c5_verify_boundary_witness :
    EcDsaPublicKey.verify testKey testProvider [5] [9] = .ok false
    ∧ EcDsaPublicKey.verify testKey failProvider [5] [9] = .error .Crypto :=
  ⟨(c5_verify_boundary testProvider testKey [5] [9]).1 false rfl,
   (c5_verify_boundary failProvider testKey [5] [9]).2 .Crypto rfl⟩

/-- C6: `new` fails with `InvalidFormat` when the group's designation is
absent or unsupported; on a supported designation the constructed key's
curve is the matching enum value, and a provider rejection of the key
material surfaces as that error. -/
theorem c6_new_validation (P : Provider) (g : EcGroupRef) (p : EcPointRef) :
    (g.curve_name = none →
      EcDsaPublicKey.new P g p = .error .InvalidFormat)
    ∧ (∀ n, g.curve_name = some n → nidToCurve n = none →
        EcDsaPublicKey.new P g p = .error .InvalidFormat)
    ∧ (∀ n c, g.curve_name = some n → nidToCurve n = some c →
        (∀ k, EcDsaPublicKey.new P g p = .ok k → k.curve = c)
        ∧ (∀ e, P.accepts g p = some e →
            EcDsaPublicKey.new P g p = .error e)) := by
  refine ⟨?_, ?_, ?_⟩
  · intro hg
    simp [EcDsaPublicKey.new, hg]
  · intro n hg hn
    simp [EcDsaPublicKey.new, hg, hn]
  · intro n c hg hn
    constructor
    · intro k hk
      rcases ha : P.accepts g p with _ | e
      · simp [EcDsaPublicKey.new, EcKey.from_public_key, hg, hn, ha] at hk
        subst hk
        rfl
      · simp [EcDsaPublicKey.new, EcKey.from_public_key, hg, hn, ha] at hk
    · intro e ha
      simp [EcDsaPublicKey.new, EcKey.from_public_key, hg, hn, ha]

/-- Witness for C6 across the outcomes: no designation, unsupported
designation, supported designation, and provider rejection. -/
theorem c6_new_validation_witness :
    EcDsaPublicKey.new testProvider noNameGroup testPoint =
      .error .InvalidFormat
    ∧ EcDsaPublicKey.new testProvider otherGroup testPoint =
      .error .InvalidFormat
    ∧ testKey.curve = .Nistp256
    ∧ EcDsaPublicKey.new failProvider testGroup testPoint = .error .Crypto :=
  ⟨(c6_new_validation testProvider noNameGroup testPoint).1 rfl,
   (c6_new_validation testProvider otherGroup testPoint).2.1
     (.OTHER 0) rfl rfl,
   ((c6_new_validation testProvider testGroup testPoint).2.2
     .X9_62_PRIME256V1 .Nistp256 rfl rfl).1 testKey rfl,
   ((c6_new_validation failProvider testGroup testPoint).2.2
     .X9_62_PRIME256V1 .Nistp256 rfl rfl).2 .Crypto rfl⟩

/-- C7: curve parsing accepts exactly the three short identifiers,
returning the matching curve, and fails with `UnsupportedCurve` on every
other string — no case folding, no partial matches. -/
theorem c7_from_str_exact (s : String) :
    EcCurve.from_str "nistp256" = .ok .Nistp256
    ∧ EcCurve.from_str "nistp384" = .ok .Nistp384
    ∧ EcCurve.from_str "nistp521" = .ok .Nistp521
    ∧ (s ≠ "nistp256" → s ≠ "nistp384" → s ≠ "nistp521" →
        EcCurve.from_str s = .error .UnsupportedCurve) := by
  refine ⟨rfl, rfl, rfl, ?_⟩
  intro h1 h2 h3
  simp [EcCurve.from_str, h1, h2, h3]

/-- Witness for C7: the case variant "NISTP256" is rejected. -/
theorem c7_from_str_exact_witness :
    EcCurve.from_str "NISTP256" = .error .UnsupportedCurve :=
  (c7_from_str_exact "NISTP256").2.2.2 (by decide) (by decide) (by decide)

/-- C8: parsing a curve's own short identifier yields that same curve. -/
theorem c8_parse_ident_roundtrip (c : EcCurve) :
    EcCurve.from_str c.ident = .ok c := by
  cases c <;> rfl

/-- C9: key-pair verification delegates to the freshly derived public key,
propagating a derivation failure, and its result is independent of the
private scalar and of the stored curve tag. -/
theorem c9_verify_delegates (P : Provider) (kp : EcDsaKeyPair)
    (d s : List Nat) :
    kp.verify P d s =
      (match kp.clone_public_key P with
        | .error e => .error e
        | .ok pk => pk.verify P d s)
    ∧ ∀ (g : EcGroupRef) (pt : EcPointRef) (x y : Nat) (c1 c2 : EcCurve),
        EcDsaKeyPair.verify ⟨⟨g, pt, x⟩, c1⟩ P d s =
          EcDsaKeyPair.verify ⟨⟨g, pt, y⟩, c2⟩ P d s :=
  ⟨rfl, fun _ _ _ _ _ _ => rfl⟩

/-- C10: the text display unwraps `blob()`: a blob failure panics
(modelled as `none`), so the display path is total only when `blob()`
succeeds, in which case it is the algorithm name, a space, and the base64
of the blob. -/
theorem c10_display_unwrap (P : Provider) (k : EcDsaPublicKey) :
    (∀ e, k.blob P = .error e → k.display P = none)
    ∧ (∀ b, k.blob P = .ok b →
        k.display P = some (k.curve.name ++ " " ++ base64_encode b)) := by
  constructor
  · intro e h
    simp [EcDsaPublicKey.display, h]
  · intro b h
    simp [EcDsaPublicKey.display, h]

/-- Witness for C10: on the failing provider the display panics. -/
theorem c10_display_unwrap_witness :
    EcDsaPublicKey.display testKey failProvider = none :=
  (c10_display_unwrap failProvider testKey).1 .Encoding rfl

end OsshEcdsa
